import Mathlib

/-!
Shallow embedding of the stt-tts-chatbot repository (src/main.py, src/app.py).

The backend pipeline (src/main.py) is: recognize uploaded WAV bytes, send the
transcript to an agent, synthesize the agent reply, return the audio. The
external Azure services (speech recognizer, speech synthesizer, agent client)
are opaque collaborators; they are modelled as oracle functions / environment
records supplied to each stage, while all control flow, string formatting,
result classification and error handling of the repository's own code is
embedded faithfully. Bytes are `List Nat`. Python exceptions are modelled
explicitly: `HTTPException` values versus generic exceptions carrying their
`str(e)` message.
-/

/-- An HTTP error as raised via FastAPI's `HTTPException(status_code, detail)`. -/
structure HTTPException where
  status_code : Nat
  detail : String
deriving DecidableEq

/-- A Python exception escaping a pipeline stage: either an `HTTPException`
or a generic exception carrying its message (`str(e)`). -/
inductive PyErr where
  | http (e : HTTPException)
  | exc (msg : String)
deriving DecidableEq

/-- Byte `i` of `b` (0 when out of range; the WAV parser checks lengths first). -/
def byteAt (b : List Nat) (i : Nat) : Nat := b.getD i 0

/-- Little-endian 16-bit read at offset `i`. -/
def readLE16 (b : List Nat) (i : Nat) : Nat :=
  byteAt b i + 256 * byteAt b (i + 1)

/-- Little-endian 32-bit read at offset `i`. -/
def readLE32 (b : List Nat) (i : Nat) : Nat :=
  byteAt b i + 256 * byteAt b (i + 1) + 65536 * byteAt b (i + 2) +
    16777216 * byteAt b (i + 3)

/-- What `wave.open` exposes of a WAV file in src/main.py lines 76-83:
channel count, frame rate, sample width in bytes, frame count, and the raw
PCM frames returned by `readframes(getnframes())`. -/
structure WavInfo where
  n_channels : Nat
  framerate : Nat
  sampwidth : Nat
  n_frames : Nat
  frames : List Nat
deriving DecidableEq

/-- RIFF/WAVE/fmt magic and the PCM format tag of a canonical 44-byte-header
WAV file. -/
def wavMagicOk (b : List Nat) : Bool :=
  byteAt b 0 == 82 && byteAt b 1 == 73 && byteAt b 2 == 70 && byteAt b 3 == 70 &&
  byteAt b 8 == 87 && byteAt b 9 == 65 && byteAt b 10 == 86 && byteAt b 11 == 69 &&
  byteAt b 12 == 102 && byteAt b 13 == 109 && byteAt b 14 == 116 && byteAt b 15 == 32 &&
  readLE16 b 20 == 1 &&
  byteAt b 36 == 100 && byteAt b 37 == 97 && byteAt b 38 == 116 && byteAt b 39 == 97

/-- Model of the Python stdlib `wave` module reader used at src/main.py
lines 76-83, for canonical PCM WAV files (44-byte header: RIFF chunk, fmt
chunk with channels at offset 22, sample rate at 24, bits per sample at 34,
then the data chunk). `none` models `wave.Error` on a malformed file.
`getnframes` is the data-chunk size divided by the frame size, and
`readframes(getnframes())` yields that many whole frames of the data chunk. -/
def parseWav (b : List Nat) : Option WavInfo :=
  if b.length < 44 then none
  else if wavMagicOk b then
    if readLE16 b 22 = 0 ∨ readLE16 b 34 = 0 ∨ readLE16 b 34 % 8 ≠ 0 ∨
        b.length < 44 + readLE32 b 40 then none
    else
      some { n_channels := readLE16 b 22
             framerate := readLE32 b 24
             sampwidth := readLE16 b 34 / 8
             n_frames := readLE32 b 40 / (readLE16 b 22 * (readLE16 b 34 / 8))
             frames := (b.drop 44).take
               ((readLE32 b 40 / (readLE16 b 22 * (readLE16 b 34 / 8))) *
                 (readLE16 b 22 * (readLE16 b 34 / 8))) }
  else none

/-- The `speechsdk.audio.AudioStreamFormat` built at src/main.py lines 87-91. -/
structure AudioStreamFormat where
  samples_per_second : Nat
  bits_per_sample : Nat
  channels : Nat
deriving DecidableEq

/-- What the recognizer receives: the declared stream format plus the raw
bytes written to the push stream (src/main.py lines 94-102). -/
structure RecognizerInput where
  format : AudioStreamFormat
  data : List Nat
deriving DecidableEq

/-- The exact input handed to the speech recognizer by
`speech_to_text_from_audio_data`: format fields taken from the parsed WAV
header (`bits_per_sample = sampwidth * 8`, line 80) and the raw frames with
the header stripped (lines 83, 100). -/
def recognizerInputOf (wav : WavInfo) : RecognizerInput :=
  { format := { samples_per_second := wav.framerate
                bits_per_sample := wav.sampwidth * 8
                channels := wav.n_channels }
    data := wav.frames }

/-- The `speechsdk.ResultReason` values distinguished by src/main.py; `other`
covers every remaining reason of the SDK enum. -/
inductive ResultReason where
  | recognizedSpeech
  | noMatch
  | canceled
  | synthesizingAudioCompleted
  | other
deriving DecidableEq

/-- Cancellation details of a canceled SDK result: the stringified reason and
the error detail string. -/
structure CancellationDetails where
  reason : String
  error_details : String
deriving DecidableEq

/-- A speech recognition result as consumed at src/main.py lines 107-118. -/
structure SpeechRecognitionResult where
  reason : ResultReason
  text : String
  cancellation_details : CancellationDetails
deriving DecidableEq

/-- The detail string of the 500 raised at src/main.py line 118. -/
def sttCanceledDetail (cd : CancellationDetails) : String :=
  "Speech Recognition canceled: " ++ cd.reason ++ ". Error: " ++ cd.error_details

/-- The result classification of `speech_to_text_from_audio_data`
(src/main.py lines 107-120): recognized speech returns the text, no-match
raises 400, cancellation raises 500 with the cancellation details, any other
reason falls through to `return ""`. -/
def sttHandleResult (result : SpeechRecognitionResult) : Except PyErr String :=
  if result.reason = ResultReason.recognizedSpeech then Except.ok result.text
  else if result.reason = ResultReason.noMatch then
    Except.error (PyErr.http { status_code := 400, detail := "No speech could be recognized." })
  else if result.reason = ResultReason.canceled then
    Except.error (PyErr.http ⟨500, sttCanceledDetail result.cancellation_details⟩)
  else Except.ok ""

/-- Message of the `wave.Error` raised by `wave.open` on a malformed upload;
it escapes `speech_to_text_from_audio_data` as a generic exception. -/
def waveErrorMsg : String := "file does not start with RIFF id"

/-- Stage 1, `speech_to_text_from_audio_data` (src/main.py lines 69-120):
parse the WAV header, feed the recognizer the raw frames tagged with the
extracted format, and classify the result. The external recognizer is the
oracle `recognize`. -/
def speech_to_text_from_audio_data (recognize : RecognizerInput → SpeechRecognitionResult)
    (audio_data : List Nat) : Except PyErr String :=
  match parseWav audio_data with
  | none => Except.error (PyErr.exc waveErrorMsg)
  | some wav => sttHandleResult (recognize (recognizerInputOf wav))

/-- A speech synthesis result as consumed at src/main.py lines 134-139. -/
structure SpeechSynthesisResult where
  reason : ResultReason
  audio_data : List Nat
  cancellation_details : CancellationDetails
deriving DecidableEq

/-- The detail string of the 500 raised at src/main.py line 139. -/
def ttsCanceledDetail (cd : CancellationDetails) : String :=
  "Text-to-Speech canceled: " ++ cd.reason ++ ". Error: " ++ cd.error_details

/-- Stage 3, `text_to_speech_to_stream` (src/main.py lines 122-141): a
completed synthesis returns the in-memory audio bytes, a cancellation raises
500 with the details, and any other outcome returns `None` (modelled as
`Except.ok none`). The external synthesizer is the oracle `synthesize`. -/
def text_to_speech_to_stream (synthesize : String → SpeechSynthesisResult)
    (text : String) : Except PyErr (Option (List Nat)) :=
  let result := synthesize text
  if result.reason = ResultReason.synthesizingAudioCompleted then
    Except.ok (some result.audio_data)
  else if result.reason = ResultReason.canceled then
    Except.error (PyErr.http ⟨500, ttsCanceledDetail result.cancellation_details⟩)
  else Except.ok none

/-- An agent thread message: its role and the `text.value` of each of its
ordered text segments (`message.text_messages`). -/
structure AgentMessage where
  role : String
  text_messages : List String
deriving DecidableEq

/-- The terminal state of an agent run: its status string and `last_error`. -/
structure RunResult where
  status : String
  last_error : String
deriving DecidableEq

/-- The agent backend as observed by one call of `get_agent_response`:
whether the project client was initialized at startup, whether each SDK call
(thread create, message create, run, message list) raises, the run's terminal
state, and the thread's messages in chronological (append) order after the
run. Listing with `ListSortOrder.DESCENDING` returns their reverse. -/
structure AgentEnv where
  project_client_initialized : Bool
  threads_create_raises : Bool
  messages_create_raises : Bool
  run_raises : Bool
  run : RunResult
  messages_list_raises : Bool
  thread_messages : List AgentMessage
deriving DecidableEq

/-- Diagnostic returned when the project client is `None` (src/main.py line 148). -/
def notInitializedMsg : String :=
  "Error: AI Project Client is not initialized. Check server logs."

/-- Apology returned by the catch-all handler (src/main.py line 189). -/
def apologyMsg : String :=
  "I'm sorry, but I encountered an error while trying to process your request."

/-- Fallback initialised at src/main.py line 178, returned when no assistant
message with text segments is found. -/
def noResponseFallback : String := "Sorry, I couldn't get a response."

/-- The string returned when the run's status is "failed" (src/main.py line 172). -/
def runFailedMsg (last_error : String) : String :=
  "The agent encountered an error: " ++ last_error

/-- The scan loop of src/main.py lines 178-182 over the newest-first message
list: the first message with role "assistant" and a non-empty (truthy)
`text_messages` yields its last segment's text; otherwise the fallback. -/
def findAssistantResponse : List AgentMessage → String
  | [] => noResponseFallback
  | m :: rest =>
    if m.role = "assistant" ∧ m.text_messages ≠ [] then
      m.text_messages.getLast?.getD ""
    else findAssistantResponse rest

/-- Stage 2, `get_agent_response` (src/main.py lines 143-189): short-circuit
when the client is uninitialized; create a thread, post the user message and
run the agent, any exception becoming the fixed apology; a failed run returns
its last error embedded in a fixed prefix; then list messages newest-first
and scan for the latest assistant reply. Always returns a string. -/
def get_agent_response (env : AgentEnv) (user_text : String) : String :=
  if env.project_client_initialized = false then notInitializedMsg
  else if env.threads_create_raises = true then apologyMsg
  else if env.messages_create_raises = true then apologyMsg
  else if env.run_raises = true then apologyMsg
  else if env.run.status = "failed" then runFailedMsg env.run.last_error
  else if env.messages_list_raises = true then apologyMsg
  else findAssistantResponse env.thread_messages.reverse

/-- A FastAPI `Response(content=..., media_type=...)` with its status code. -/
structure FastapiResponse where
  status_code : Nat
  content : List Nat
  media_type : String
deriving DecidableEq

/-- Outcome of the chat endpoint: a successful response, or an HTTP error
(FastAPI renders a raised `HTTPException` with its status and detail). -/
inductive EndpointResult where
  | ok (r : FastapiResponse)
  | error (e : HTTPException)
deriving DecidableEq

/-- CPython's message for the `AttributeError` raised at src/main.py line 209
when `text_to_speech_to_stream` returned `None` and `.getvalue()` is called
on it. -/
def noneGetvalueMsg : String := "'NoneType' object has no attribute 'getvalue'"

/-- The detail of the catch-all 500 built at src/main.py line 217. -/
def internalErrorDetail (msg : String) : String :=
  "An internal server error occurred. Details: " ++ msg

/-- The process-wide collaborators reached by one request: the recognizer and
synthesizer oracles and the agent backend. -/
structure ChatEnv where
  recognize : RecognizerInput → SpeechRecognitionResult
  agent : AgentEnv
  synthesize : String → SpeechSynthesisResult

/-- The `/api/chat` endpoint, `chat_endpoint` (src/main.py lines 193-217):
run the three stages in order inside a try block; an empty transcript raises
400 "Could not understand the audio."; a raised `HTTPException` is re-raised
unchanged; any other exception (a `wave.Error`, or the `AttributeError` from
calling `.getvalue()` on an absent synthesis result) becomes a 500 whose
detail wraps the exception's message; on success the full synthesized bytes
are the response body with media type "audio/wav". -/
def chat_endpoint (env : ChatEnv) (audio_data : List Nat) : EndpointResult :=
  match speech_to_text_from_audio_data env.recognize audio_data with
  | Except.error (PyErr.http e) => EndpointResult.error e
  | Except.error (PyErr.exc m) =>
      EndpointResult.error { status_code := 500, detail := internalErrorDetail m }
  | Except.ok user_text =>
    if user_text = "" then
      EndpointResult.error { status_code := 400, detail := "Could not understand the audio." }
    else
      match text_to_speech_to_stream env.synthesize (get_agent_response env.agent user_text) with
      | Except.error (PyErr.http e) => EndpointResult.error e
      | Except.error (PyErr.exc m) =>
          EndpointResult.error { status_code := 500, detail := internalErrorDetail m }
      | Except.ok none =>
          EndpointResult.error ⟨500, internalErrorDetail noneGetvalueMsg⟩
      | Except.ok (some audio_bytes) =>
          EndpointResult.ok ⟨200, audio_bytes, "audio/wav"⟩

/-- Client-side session state relevant to the duplicate-submission guard
(src/app.py lines 35-36): the most recently submitted clip's raw bytes. -/
structure ClientState where
  last_audio : Option (List Nat)
deriving DecidableEq

/-- One Streamlit rerun of the main logic (src/app.py lines 51-64): when the
recorder yields a clip whose bytes differ from `last_audio`, record it and
POST it to the backend; otherwise do nothing. Returns the new state and the
number of HTTP POSTs performed in this rerun. -/
def clientStep (st : ClientState) (wav_audio_data : Option (List Nat)) : ClientState × Nat :=
  match wav_audio_data with
  | none => (st, 0)
  | some b =>
    if some b ≠ st.last_audio then ({ last_audio := some b }, 1)
    else (st, 0)

/-! Concrete environments and inputs used by witnesses and counterexamples. -/

/-- A concrete 48-byte WAV file: PCM, 1 channel, 16000 Hz, 16 bits per
sample, a 4-byte data chunk holding two frames. -/
def sampleWav : List Nat :=
  [82, 73, 70, 70, 40, 0, 0, 0, 87, 65, 86, 69, 102, 109, 116, 32,
   16, 0, 0, 0, 1, 0, 1, 0, 128, 62, 0, 0, 0, 125, 0, 0, 2, 0, 16, 0,
   100, 97, 116, 97, 4, 0, 0, 0, 10, 20, 30, 40]

/-- The parsed form of `sampleWav`. -/
def sampleWavInfo : WavInfo := ⟨1, 16000, 2, 2, [10, 20, 30, 40]⟩

/-- A recognizer oracle that always recognizes the text "hello". -/
def recognizeOk : RecognizerInput → SpeechRecognitionResult :=
  fun _ => ⟨ResultReason.recognizedSpeech, "hello", ⟨"", ""⟩⟩

/-- A recognizer oracle that always reports no match. -/
def recognizeNoMatch : RecognizerInput → SpeechRecognitionResult :=
  fun _ => ⟨ResultReason.noMatch, "", ⟨"", ""⟩⟩

/-- A recognizer oracle that always reports cancellation. -/
def recognizeCanceled : RecognizerInput → SpeechRecognitionResult :=
  fun _ => ⟨ResultReason.canceled, "", ⟨"CancellationReason.Error", "boom"⟩⟩

/-- A recognizer oracle whose result reason is none of the handled three. -/
def recognizeOther : RecognizerInput → SpeechRecognitionResult :=
  fun _ => ⟨ResultReason.other, "", ⟨"", ""⟩⟩

/-- A healthy agent backend whose thread ends with one assistant reply. -/
def agentOkEnv : AgentEnv :=
  ⟨true, false, false, false, ⟨"completed", ""⟩, false,
   [⟨"user", ["hello"]⟩, ⟨"assistant", ["hi there"]⟩]⟩

/-- A synthesizer oracle that always completes with the bytes [1, 2, 3]. -/
def synthOk : String → SpeechSynthesisResult :=
  fun _ => ⟨ResultReason.synthesizingAudioCompleted, [1, 2, 3], ⟨"", ""⟩⟩

/-- A synthesizer oracle whose outcome is neither completed nor canceled. -/
def synthOther : String → SpeechSynthesisResult :=
  fun _ => ⟨ResultReason.other, [], ⟨"", ""⟩⟩

/-- A fully healthy backend environment. -/
def chatEnvOk : ChatEnv := ⟨recognizeOk, agentOkEnv, synthOk⟩

/-- A backend whose recognizer reports no match (silent audio). -/
def chatEnvNoMatch : ChatEnv := ⟨recognizeNoMatch, agentOkEnv, synthOk⟩

/-- A backend whose recognizer reports cancellation. -/
def chatEnvCanceled : ChatEnv := ⟨recognizeCanceled, agentOkEnv, synthOk⟩

/-- A backend whose recognizer yields an unclassified result reason. -/
def chatEnvOther : ChatEnv := ⟨recognizeOther, agentOkEnv, synthOk⟩

/-- A backend whose synthesizer yields an unclassified outcome. -/
def chatEnvSynthOther : ChatEnv := ⟨recognizeOk, agentOkEnv, synthOther⟩

/-- Inversion of a successful WAV parse: each extracted field is the
corresponding little-endian header read, the bits-per-sample value is a
non-zero multiple of 8, and the frames are the whole frames of the data
chunk following the 44-byte header. -/
theorem parseWav_eq_some {b : List Nat} {wav : WavInfo} (h : parseWav b = some wav) :
    wav.n_channels = readLE16 b 22 ∧ wav.framerate = readLE32 b 24 ∧
    wav.sampwidth = readLE16 b 34 / 8 ∧ readLE16 b 34 % 8 = 0 ∧
    readLE16 b 34 ≠ 0 ∧
    wav.n_frames = readLE32 b 40 / (readLE16 b 22 * (readLE16 b 34 / 8)) ∧
    wav.frames = (b.drop 44).take (wav.n_frames * (wav.n_channels * wav.sampwidth)) := by
  unfold parseWav at h
  split at h
  · exact absurd h (by simp)
  split at h
  · split at h
    · exact absurd h (by simp)
    · rename_i hguard
      push_neg at hguard
      obtain ⟨h1, h2, h3, h4⟩ := hguard
      injection h with h
      subst h
      exact ⟨rfl, rfl, rfl, h3, h2, rfl, rfl⟩
  · exact absurd h (by simp)

/-- C1: for every request in which recognition yields a non-empty transcript
and synthesis completes, the chat endpoint returns status 200 whose body is
exactly the complete audio byte sequence produced by the synthesis stage,
with the binary audio media type "audio/wav". -/
theorem chat_success_returns_full_audio (env : ChatEnv) (audio_data : List Nat) (t : String)
    (h1 : speech_to_text_from_audio_data env.recognize audio_data = Except.ok t)
    (h2 : t ≠ "")
    (h3 : (env.synthesize (get_agent_response env.agent t)).reason
            = ResultReason.synthesizingAudioCompleted) :
    chat_endpoint env audio_data
      = EndpointResult.ok
          ⟨200, (env.synthesize (get_agent_response env.agent t)).audio_data, "audio/wav"⟩ := by
  unfold chat_endpoint
  rw [h1]
  simp [h2, text_to_speech_to_stream, h3]

/-- Witness for C1 at a concrete healthy environment and a concrete WAV. -/
theorem chat_success_returns_full_audio_witness :
    chat_endpoint chatEnvOk sampleWav
      = EndpointResult.ok
          ⟨200, (chatEnvOk.synthesize (get_agent_response chatEnvOk.agent "hello")).audio_data,
           "audio/wav"⟩ :=
  chat_success_returns_full_audio chatEnvOk sampleWav "hello" rfl (by decide) rfl

/-- C2: for every valid WAV input, the recognition stage extracts the sample
rate, bit depth and channel count from the clip's header (the little-endian
reads at offsets 24, 34 and 22) rather than assuming fixed values, and hands
the recognizer exactly the raw PCM frames following the header, tagged with
that extracted format. -/
theorem stt_uses_header_format (recognize : RecognizerInput → SpeechRecognitionResult)
    (b : List Nat) (wav : WavInfo) (h : parseWav b = some wav) :
    speech_to_text_from_audio_data recognize b
      = sttHandleResult (recognize (recognizerInputOf wav))
    ∧ (recognizerInputOf wav).format.samples_per_second = readLE32 b 24
    ∧ (recognizerInputOf wav).format.bits_per_sample = readLE16 b 34
    ∧ (recognizerInputOf wav).format.channels = readLE16 b 22
    ∧ (recognizerInputOf wav).data
        = (b.drop 44).take (wav.n_frames * (wav.n_channels * wav.sampwidth)) := by
  obtain ⟨hc, hr, hw, hmod, hne, hn, hf⟩ := parseWav_eq_some h
  refine ⟨by unfold speech_to_text_from_audio_data; rw [h], ?_, ?_, ?_, ?_⟩
  · simpa [recognizerInputOf] using hr
  · show wav.sampwidth * 8 = readLE16 b 34
    rw [hw]
    exact Nat.div_mul_cancel (Nat.dvd_of_mod_eq_zero hmod)
  · simpa [recognizerInputOf] using hc
  · simpa [recognizerInputOf] using hf

/-- Witness for C2 at the concrete WAV `sampleWav`. -/
theorem stt_uses_header_format_witness :
    speech_to_text_from_audio_data recognizeOk sampleWav
      = sttHandleResult (recognizeOk (recognizerInputOf sampleWavInfo))
    ∧ (recognizerInputOf sampleWavInfo).format.samples_per_second = readLE32 sampleWav 24
    ∧ (recognizerInputOf sampleWavInfo).format.bits_per_sample = readLE16 sampleWav 34
    ∧ (recognizerInputOf sampleWavInfo).format.channels = readLE16 sampleWav 22
    ∧ (recognizerInputOf sampleWavInfo).data
        = (sampleWav.drop 44).take
            (sampleWavInfo.n_frames * (sampleWavInfo.n_channels * sampleWavInfo.sampwidth)) :=
  stt_uses_header_format recognizeOk sampleWav sampleWavInfo (by decide)

/-- C3 counterexample: with a recognizer reporting the no-speech outcome (a
silent WAV), the endpoint's 400 detail is "No speech could be recognized.",
not "Could not understand the audio." as the claim states. -/
theorem silent_wav_detail_counterexample :
    chat_endpoint chatEnvNoMatch sampleWav
      = EndpointResult.error ⟨400, "No speech could be recognized."⟩
    ∧ chat_endpoint chatEnvNoMatch sampleWav
      ≠ EndpointResult.error ⟨400, "Could not understand the audio."⟩ := by
  exact ⟨rfl, by decide⟩

/-- C3 amended: on a parseable clip the recognition stage fails with HTTP 400
exactly when the engine reports no recognizable speech, and with HTTP 500
exactly when the engine reports cancellation, the 500 detail carrying the
cancellation reason and the engine's error detail string; a silent/empty WAV
upload (no-speech outcome) produces a 400 response with detail "No speech
could be recognized." -/
theorem stt_error_classification (env : ChatEnv) (b : List Nat) (wav : WavInfo)
    (h : parseWav b = some wav) :
    ((∃ d, speech_to_text_from_audio_data env.recognize b
        = Except.error (PyErr.http ⟨400, d⟩))
      ↔ (env.recognize (recognizerInputOf wav)).reason = ResultReason.noMatch)
    ∧ ((∃ d, speech_to_text_from_audio_data env.recognize b
        = Except.error (PyErr.http ⟨500, d⟩))
      ↔ (env.recognize (recognizerInputOf wav)).reason = ResultReason.canceled)
    ∧ ((env.recognize (recognizerInputOf wav)).reason = ResultReason.canceled →
        speech_to_text_from_audio_data env.recognize b
          = Except.error (PyErr.http ⟨500,
              sttCanceledDetail (env.recognize (recognizerInputOf wav)).cancellation_details⟩))
    ∧ ((env.recognize (recognizerInputOf wav)).reason = ResultReason.noMatch →
        chat_endpoint env b
          = EndpointResult.error ⟨400, "No speech could be recognized."⟩) := by
  have hstt : speech_to_text_from_audio_data env.recognize b
      = sttHandleResult (env.recognize (recognizerInputOf wav)) := by
    unfold speech_to_text_from_audio_data
    rw [h]
  refine ⟨?_, ?_, ?_, ?_⟩
  · rw [hstt]
    cases hrr : (env.recognize (recognizerInputOf wav)).reason <;>
      simp [sttHandleResult, hrr]
  · rw [hstt]
    cases hrr : (env.recognize (recognizerInputOf wav)).reason <;>
      simp [sttHandleResult, hrr]
  · intro hrr
    rw [hstt]
    simp [sttHandleResult, hrr]
  · intro hrr
    unfold chat_endpoint
    rw [hstt]
    simp [sttHandleResult, hrr]

/-- Witness for the amended C3 at concrete no-match and canceled engines. -/
theorem stt_error_classification_witness :
    chat_endpoint chatEnvNoMatch sampleWav
      = EndpointResult.error ⟨400, "No speech could be recognized."⟩
    ∧ (∃ d, speech_to_text_from_audio_data chatEnvCanceled.recognize sampleWav
        = Except.error (PyErr.http ⟨500, d⟩)) :=
  ⟨(stt_error_classification chatEnvNoMatch sampleWav sampleWavInfo (by decide)).2.2.2 rfl,
   ((stt_error_classification chatEnvCanceled sampleWav sampleWavInfo (by decide)).2.1).mpr rfl⟩

/-- Environment whose project client failed to initialize at startup. -/
def agentUninitEnv : AgentEnv := ⟨false, false, false, false, ⟨"", ""⟩, false, []⟩

/-- Environment whose agent run call raises. -/
def agentRunRaisesEnv : AgentEnv := ⟨true, false, false, true, ⟨"", ""⟩, false, []⟩

/-- Environment whose agent run terminates with status "failed". -/
def agentFailedEnv : AgentEnv := ⟨true, false, false, false, ⟨"failed", "boom"⟩, false, []⟩

/-- C4: `get_agent_response` is total over its caller-visible behaviour (it
is a function into `String`, so it never raises): an uninitialized client
yields the fixed diagnostic, independently of every other field of the
environment, so no network call is consulted; an exception during thread
provisioning, message creation, the run, or message listing yields the fixed
apology string; a failed run yields a string embedding the run's last
recorded error. -/
theorem get_agent_response_degrades (env : AgentEnv) (t : String) :
    (env.project_client_initialized = false → get_agent_response env t = notInitializedMsg)
    ∧ (env.project_client_initialized = true → env.threads_create_raises = true →
        get_agent_response env t = apologyMsg)
    ∧ (env.project_client_initialized = true → env.threads_create_raises = false →
        env.messages_create_raises = true → get_agent_response env t = apologyMsg)
    ∧ (env.project_client_initialized = true → env.threads_create_raises = false →
        env.messages_create_raises = false → env.run_raises = true →
        get_agent_response env t = apologyMsg)
    ∧ (env.project_client_initialized = true → env.threads_create_raises = false →
        env.messages_create_raises = false → env.run_raises = false →
        env.run.status = "failed" →
        get_agent_response env t = runFailedMsg env.run.last_error)
    ∧ (env.project_client_initialized = true → env.threads_create_raises = false →
        env.messages_create_raises = false → env.run_raises = false →
        env.run.status ≠ "failed" → env.messages_list_raises = true →
        get_agent_response env t = apologyMsg) := by
  refine ⟨?_, ?_, ?_, ?_, ?_, ?_⟩ <;> intros <;> simp [get_agent_response, *]

/-- Witness for C4 at concrete degraded environments. -/
theorem get_agent_response_degrades_witness :
    get_agent_response agentUninitEnv "hi" = notInitializedMsg
    ∧ get_agent_response agentRunRaisesEnv "hi" = apologyMsg
    ∧ get_agent_response agentFailedEnv "hi" = runFailedMsg "boom" :=
  ⟨(get_agent_response_degrades agentUninitEnv "hi").1 rfl,
   (get_agent_response_degrades agentRunRaisesEnv "hi").2.2.2.1 rfl rfl rfl rfl,
   (get_agent_response_degrades agentFailedEnv "hi").2.2.2.2.1 rfl rfl rfl rfl rfl⟩

/-- The scan skips every message that is not an assistant message with a
non-empty segment list. -/
theorem findAssistantResponse_skip (l rest : List AgentMessage)
    (h : ∀ m ∈ l, ¬(m.role = "assistant" ∧ m.text_messages ≠ [])) :
    findAssistantResponse (l ++ rest) = findAssistantResponse rest := by
  induction l with
  | nil => rfl
  | cons m l ih =>
    have hm := h m (List.mem_cons_self m l)
    have hl : ∀ m2 ∈ l, ¬(m2.role = "assistant" ∧ m2.text_messages ≠ []) :=
      fun m2 hm2 => h m2 (List.mem_cons_of_mem m hm2)
    simp only [List.cons_append, findAssistantResponse, if_neg hm]
    exact ih hl

/-- The scan selects the head message when it is assistant-authored with a
non-empty segment list, yielding its last segment. -/
theorem findAssistantResponse_head (m : AgentMessage) (rest : List AgentMessage)
    (h1 : m.role = "assistant") (h2 : m.text_messages ≠ []) :
    findAssistantResponse (m :: rest) = m.text_messages.getLast?.getD "" := by
  simp [findAssistantResponse, h1, h2]

/-- The agent call path with no short-circuit: the client is initialized, no
SDK call raises, and the run did not fail. -/
def agentCallOk (env : AgentEnv) : Prop :=
  env.project_client_initialized = true ∧ env.threads_create_raises = false ∧
  env.messages_create_raises = false ∧ env.run_raises = false ∧
  env.run.status ≠ "failed" ∧ env.messages_list_raises = false

/-- With no short-circuit, `get_agent_response` is the scan over the
newest-first (reversed chronological) message list. -/
theorem get_agent_response_ok (env : AgentEnv) (t : String) (h : agentCallOk env) :
    get_agent_response env t = findAssistantResponse env.thread_messages.reverse := by
  obtain ⟨h1, h2, h3, h4, h5, h6⟩ := h
  simp [get_agent_response, h1, h2, h3, h4, h5, h6]

/-- C5: with a healthy agent call, reply selection scans the thread's
messages newest first and returns, from the first assistant-authored message
encountered, the last of its ordered text segments: when the chronological
thread is `ms ++ [c] ++ tail` with `c` assistant-authored and nothing after
it assistant-authored, the reply is `c`'s last segment; and when no
assistant message exists at all, the fixed fallback string is returned,
which is not the empty string. -/
theorem reply_selection_newest_first (env : AgentEnv) (t : String) (h : agentCallOk env) :
    (∀ ms tail : List AgentMessage, ∀ c : AgentMessage, ∀ s : String,
       env.thread_messages = ms ++ [c] ++ tail →
       c.role = "assistant" → c.text_messages.getLast? = some s →
       (∀ m ∈ tail, m.role ≠ "assistant") →
       get_agent_response env t = s)
    ∧ ((∀ m ∈ env.thread_messages, m.role ≠ "assistant") →
       get_agent_response env t = noResponseFallback ∧ noResponseFallback ≠ "") := by
  constructor
  · intro ms tail c s hmsgs hrole hlast htail
    rw [get_agent_response_ok env t h, hmsgs]
    have hrev : (ms ++ [c] ++ tail).reverse = tail.reverse ++ (c :: ms.reverse) := by
      simp
    rw [hrev, findAssistantResponse_skip]
    · have hne : c.text_messages ≠ [] := by
        intro he
        rw [he] at hlast
        simp at hlast
      rw [findAssistantResponse_head c ms.reverse hrole hne, hlast]
      rfl
    · intro m hm
      rw [List.mem_reverse] at hm
      exact fun hc => htail m hm hc.1
  · intro hnone
    refine ⟨?_, by decide⟩
    rw [get_agent_response_ok env t h]
    have hnil : env.thread_messages.reverse = env.thread_messages.reverse ++ [] := by
      simp
    rw [hnil, findAssistantResponse_skip]
    · rfl
    · intro m hm
      rw [List.mem_reverse] at hm
      exact fun hc => hnone m hm hc.1

/-- Witness for C5: a thread of one user message then one assistant reply
yields the assistant's (single, hence last) segment. -/
theorem reply_selection_newest_first_witness :
    get_agent_response agentOkEnv "hello" = "hi there" :=
  (reply_selection_newest_first agentOkEnv "hello"
      ⟨rfl, rfl, rfl, rfl, by decide, rfl⟩).1
    [⟨"user", ["hello"]⟩] [] ⟨"assistant", ["hi there"]⟩ "hi there"
    rfl rfl rfl (by simp)

/-- A healthy agent environment whose newest assistant message has no text
segments, above an older assistant message with two segments. -/
def agentEmptySegEnv : AgentEnv :=
  ⟨true, false, false, false, ⟨"completed", ""⟩, false,
   [⟨"assistant", ["first", "second"]⟩, ⟨"assistant", []⟩]⟩

/-- C10: during reply selection an assistant message whose segment list is
empty is skipped rather than selected and does not terminate the scan: the
reply comes from the newest assistant message having at least one text
segment, and the fallback is returned only when no assistant message with a
segment exists in the thread. -/
theorem empty_segment_messages_skipped (env : AgentEnv) (t : String) (h : agentCallOk env) :
    (∀ ms tail : List AgentMessage, ∀ c : AgentMessage, ∀ s : String,
       env.thread_messages = ms ++ [c] ++ tail →
       c.role = "assistant" → c.text_messages.getLast? = some s →
       (∀ m ∈ tail, ¬(m.role = "assistant" ∧ m.text_messages ≠ [])) →
       get_agent_response env t = s)
    ∧ ((∀ m ∈ env.thread_messages, ¬(m.role = "assistant" ∧ m.text_messages ≠ [])) →
       get_agent_response env t = noResponseFallback) := by
  constructor
  · intro ms tail c s hmsgs hrole hlast htail
    rw [get_agent_response_ok env t h, hmsgs]
    have hrev : (ms ++ [c] ++ tail).reverse = tail.reverse ++ (c :: ms.reverse) := by
      simp
    rw [hrev, findAssistantResponse_skip]
    · have hne : c.text_messages ≠ [] := by
        intro he
        rw [he] at hlast
        simp at hlast
      rw [findAssistantResponse_head c ms.reverse hrole hne, hlast]
      rfl
    · intro m hm
      rw [List.mem_reverse] at hm
      exact htail m hm
  · intro hnone
    rw [get_agent_response_ok env t h]
    have hnil : env.thread_messages.reverse = env.thread_messages.reverse ++ [] := by
      simp
    rw [hnil, findAssistantResponse_skip]
    · rfl
    · intro m hm
      rw [List.mem_reverse] at hm
      exact hnone m hm

/-- Witness for C10: the newest assistant message has no segments and is
skipped; the reply is the older assistant message's second (last) segment. -/
theorem empty_segment_messages_skipped_witness :
    get_agent_response agentEmptySegEnv "hi" = "second" :=
  (empty_segment_messages_skipped agentEmptySegEnv "hi"
      ⟨rfl, rfl, rfl, rfl, by decide, rfl⟩).1
    [] [⟨"assistant", []⟩] ⟨"assistant", ["first", "second"]⟩ "second"
    rfl rfl rfl (by decide)

/-- C6: when the synthesis outcome is neither completed nor canceled, the
synthesis stage returns an absent result (`none`), not zero-length audio,
and the endpoint turns that absent result into a 500 server error (the
AttributeError from `.getvalue()` on `None`, caught at the boundary) — it
never returns a 200 response in that case. -/
theorem synth_absent_result_is_server_error (env : ChatEnv) (b : List Nat) (t : String)
    (h1 : speech_to_text_from_audio_data env.recognize b = Except.ok t)
    (h2 : t ≠ "")
    (h3 : (env.synthesize (get_agent_response env.agent t)).reason
            ≠ ResultReason.synthesizingAudioCompleted)
    (h4 : (env.synthesize (get_agent_response env.agent t)).reason
            ≠ ResultReason.canceled) :
    text_to_speech_to_stream env.synthesize (get_agent_response env.agent t)
      = Except.ok none
    ∧ chat_endpoint env b
      = EndpointResult.error ⟨500, internalErrorDetail noneGetvalueMsg⟩
    ∧ ∀ r : FastapiResponse, chat_endpoint env b ≠ EndpointResult.ok r := by
  have htts : text_to_speech_to_stream env.synthesize (get_agent_response env.agent t)
      = Except.ok none := by
    simp [text_to_speech_to_stream, h3, h4]
  have hchat : chat_endpoint env b
      = EndpointResult.error ⟨500, internalErrorDetail noneGetvalueMsg⟩ := by
    unfold chat_endpoint
    rw [h1]
    simp [h2, htts]
  refine ⟨htts, hchat, fun r hr => ?_⟩
  rw [hchat] at hr
  exact EndpointResult.noConfusion hr

/-- Witness for C6 at a synthesizer with an unclassified outcome. -/
theorem synth_absent_result_is_server_error_witness :
    text_to_speech_to_stream chatEnvSynthOther.synthesize
        (get_agent_response chatEnvSynthOther.agent "hello") = Except.ok none
    ∧ chat_endpoint chatEnvSynthOther sampleWav
      = EndpointResult.error ⟨500, internalErrorDetail noneGetvalueMsg⟩ :=
  ⟨(synth_absent_result_is_server_error chatEnvSynthOther sampleWav "hello"
      rfl (by decide) (by decide) (by decide)).1,
   (synth_absent_result_is_server_error chatEnvSynthOther sampleWav "hello"
      rfl (by decide) (by decide) (by decide)).2.1⟩

/-- C7: an already-classified `HTTPException` raised by a stage propagates
out of the endpoint unchanged with its status and detail, while an
unclassified exception is caught exactly once at the endpoint boundary and
becomes a 500 whose detail wraps (hence contains) the original exception's
message; the absent synthesis result surfaces the same way through the
AttributeError message. -/
theorem endpoint_error_propagation (env : ChatEnv) (b : List Nat) :
    (∀ e : HTTPException, speech_to_text_from_audio_data env.recognize b
        = Except.error (PyErr.http e) → chat_endpoint env b = EndpointResult.error e)
    ∧ (∀ m : String, speech_to_text_from_audio_data env.recognize b
        = Except.error (PyErr.exc m) →
        chat_endpoint env b = EndpointResult.error ⟨500, internalErrorDetail m⟩
        ∧ ∃ p, internalErrorDetail m = p ++ m)
    ∧ (∀ t : String, ∀ e : HTTPException,
        speech_to_text_from_audio_data env.recognize b = Except.ok t → t ≠ "" →
        text_to_speech_to_stream env.synthesize (get_agent_response env.agent t)
          = Except.error (PyErr.http e) →
        chat_endpoint env b = EndpointResult.error e)
    ∧ (∀ t : String,
        speech_to_text_from_audio_data env.recognize b = Except.ok t → t ≠ "" →
        text_to_speech_to_stream env.synthesize (get_agent_response env.agent t)
          = Except.ok none →
        chat_endpoint env b
          = EndpointResult.error ⟨500, internalErrorDetail noneGetvalueMsg⟩) := by
  refine ⟨?_, ?_, ?_, ?_⟩
  · intro e h
    unfold chat_endpoint
    rw [h]
  · intro m h
    refine ⟨?_, ⟨"An internal server error occurred. Details: ", rfl⟩⟩
    unfold chat_endpoint
    rw [h]
  · intro t e h1 h2 h3
    unfold chat_endpoint
    rw [h1]
    simp [h2, h3]
  · intro t h1 h2 h3
    unfold chat_endpoint
    rw [h1]
    simp [h2, h3]

/-- Witness for C7: a recognition cancellation's 500 passes through
unchanged, and a malformed upload's `wave.Error` is wrapped into the
catch-all 500. -/
theorem endpoint_error_propagation_witness :
    chat_endpoint chatEnvCanceled sampleWav
      = EndpointResult.error
          ⟨500, sttCanceledDetail ⟨"CancellationReason.Error", "boom"⟩⟩
    ∧ chat_endpoint chatEnvOk [1, 2, 3]
      = EndpointResult.error ⟨500, internalErrorDetail waveErrorMsg⟩ :=
  ⟨(endpoint_error_propagation chatEnvCanceled sampleWav).1
      ⟨500, sttCanceledDetail ⟨"CancellationReason.Error", "boom"⟩⟩ rfl,
   ((endpoint_error_propagation chatEnvOk [1, 2, 3]).2.1 waveErrorMsg rfl).1⟩

/-- C8: an empty transcript never flows downstream: an unclassified
recognition reason yields the empty transcript, and whenever recognition
returns the empty transcript the endpoint answers 400 "Could not understand
the audio." — identically for any two environments sharing the recognizer,
so the conversation and synthesis stages are never consulted. -/
theorem empty_transcript_stops_pipeline (env env2 : ChatEnv) (b : List Nat)
    (hrec : env2.recognize = env.recognize)
    (hempty : speech_to_text_from_audio_data env.recognize b = Except.ok "") :
    chat_endpoint env b = EndpointResult.error ⟨400, "Could not understand the audio."⟩
    ∧ chat_endpoint env2 b = chat_endpoint env b
    ∧ (∀ res : SpeechRecognitionResult, res.reason ≠ ResultReason.recognizedSpeech →
        res.reason ≠ ResultReason.noMatch → res.reason ≠ ResultReason.canceled →
        sttHandleResult res = Except.ok "") := by
  have h1 : chat_endpoint env b
      = EndpointResult.error ⟨400, "Could not understand the audio."⟩ := by
    unfold chat_endpoint
    rw [hempty]
    simp
  have h2 : chat_endpoint env2 b
      = EndpointResult.error ⟨400, "Could not understand the audio."⟩ := by
    unfold chat_endpoint
    rw [hrec, hempty]
    simp
  refine ⟨h1, h2.trans h1.symm, ?_⟩
  intro res hr1 hr2 hr3
  simp [sttHandleResult, hr1, hr2, hr3]

/-- A second environment with the same recognizer as `chatEnvOther` but
different agent and synthesis collaborators. -/
def chatEnvOther2 : ChatEnv := ⟨recognizeOther, agentUninitEnv, synthOther⟩

/-- Witness for C8 at a recognizer yielding an unclassified reason. -/
theorem empty_transcript_stops_pipeline_witness :
    chat_endpoint chatEnvOther sampleWav
      = EndpointResult.error ⟨400, "Could not understand the audio."⟩
    ∧ chat_endpoint chatEnvOther2 sampleWav = chat_endpoint chatEnvOther sampleWav :=
  ⟨(empty_transcript_stops_pipeline chatEnvOther chatEnvOther2 sampleWav rfl rfl).1,
   (empty_transcript_stops_pipeline chatEnvOther chatEnvOther2 sampleWav rfl rfl).2.1⟩

/-- C9: the client submits a newly captured clip only when its raw bytes
differ from the most recently submitted clip's bytes: a fresh payload posts
exactly once, presenting the same payload again posts nothing more (one POST
total for the pair), and a payload differing from the last submitted one
always proceeds to submission. -/
theorem duplicate_submission_guard (st : ClientState) (b : List Nat)
    (h : some b ≠ st.last_audio) :
    (clientStep st (some b)).2 = 1
    ∧ (clientStep (clientStep st (some b)).1 (some b)).2 = 0
    ∧ (clientStep st (some b)).2 + (clientStep (clientStep st (some b)).1 (some b)).2 = 1
    ∧ (∀ b2 : List Nat, some b2 ≠ (clientStep st (some b)).1.last_audio →
        (clientStep (clientStep st (some b)).1 (some b2)).2 = 1) := by
  have hstep : clientStep st (some b) = ({ last_audio := some b }, 1) := by
    simp [clientStep, h]
  refine ⟨?_, ?_, ?_, ?_⟩
  · rw [hstep]
  · rw [hstep]
    simp [clientStep]
  · rw [hstep]
    simp [clientStep]
  · intro b2 hb2
    rw [hstep] at hb2 ⊢
    simp [clientStep, hb2]

/-- Witness for C9 at a fresh session and a concrete clip. -/
theorem duplicate_submission_guard_witness :
    (clientStep ⟨none⟩ (some [1])).2 = 1
    ∧ (clientStep (clientStep ⟨none⟩ (some [1])).1 (some [1])).2 = 0 :=
  ⟨(duplicate_submission_guard ⟨none⟩ [1] (by decide)).1,
   (duplicate_submission_guard ⟨none⟩ [1] (by decide)).2.1⟩
